import Mathlib

/-!
Verification development for the DIRECTIP ingestion core:
the E-SURFMAR Format #100 sensor-payload codec (`receiver/eucaws_decoder.py`),
the Iridium SBD DirectIP envelope walker (`receiver/iridium_parser.py`), and
the per-connection session handling (`receiver/socket_server.py`).

Bytes are modelled as `List Nat` (each element a byte value), machine integers
as `Nat`/`Int` with explicit two's-complement arithmetic, Python floats as
exact rationals (the decoder only multiplies/adds small decimal constants, so
the rational value is the float computation's intended value), and the two
fallible effects of the Python code — `ValueError` raised by the bit reader
and `TypeError` raised by `bytes.fromhex` — as `Except String`.  The wall
clock read by `datetime.now(timezone.utc)` is made an explicit argument
`now`.
-/

namespace DirectIP

/-- One bit of a byte buffer at absolute bit index `i`, MSB first within each
byte, exactly as `BitReader.read_bits` computes it: `byte_index = i / 8`,
`bit_index = 7 - i % 8`, bit `= (data[byte_index] >> bit_index) & 1`.
Out-of-range byte indices give 0 here; the fallible reader below errors
instead of defaulting. -/
def bitAt (data : List Nat) (i : Nat) : Nat :=
  data.getD (i / 8) 0 / 2 ^ (7 - i % 8) % 2

/-- Accumulator form of MSB-first extraction: `n` bits starting at `pos`,
folded as `acc = acc * 2 + bit` like the Python loop. -/
def getRawAux (data : List Nat) : Nat → Nat → Nat → Nat
  | 0, acc, _ => acc
  | n + 1, acc, pos => getRawAux data n (acc * 2 + bitAt data pos) (pos + 1)

/-- The unsigned integer formed by bits `pos, pos+1, …, pos+n-1` (MSB first)
of the buffer. -/
def getRaw (data : List Nat) (pos n : Nat) : Nat :=
  getRawAux data n 0 pos

/-- Two's-complement reinterpretation of `getRaw`, as in
`BitReader.read_signed_bits`: if the sign bit (`value & (1 << (n-1))`) is
set, subtract `1 << n`. -/
def getRawSigned (data : List Nat) (pos n : Nat) : Int :=
  if (getRaw data pos n).testBit (n - 1) then (getRaw data pos n : Int) - 2 ^ n
  else (getRaw data pos n : Int)

/-- Model of `BitReader.read_bits`, with the cursor threaded explicitly: read `n` bits
starting at bit `pos`; raise (model: `Except.error`) when the needed byte
index falls beyond the buffer, mirroring
`if byte_index >= len(self.data): raise ValueError(...)`. -/
def read_bits_aux (data : List Nat) : Nat → Nat → Nat → Except String (Nat × Nat)
  | 0, acc, pos => .ok (acc, pos)
  | n + 1, acc, pos =>
    if data.length ≤ pos / 8 then
      .error ("Attempt to read beyond data length at bit " ++ toString pos)
    else
      read_bits_aux data n (acc * 2 + bitAt data pos) (pos + 1)

/-- Read `n` bits at cursor `pos`, returning the unsigned value and the new
cursor. -/
def read_bits (data : List Nat) (n pos : Nat) : Except String (Nat × Nat) :=
  read_bits_aux data n 0 pos

/-- Model of `BitReader.read_signed_bits`: read `n` bits and reinterpret as
two's-complement. -/
def read_signed_bits (data : List Nat) (n pos : Nat) : Except String (Int × Nat) :=
  (read_bits data n pos).map fun vp =>
    (if vp.1.testBit (n - 1) then (vp.1 : Int) - 2 ^ n else (vp.1 : Int), vp.2)

/-- Gregorian leap-year rule, as used by Python `datetime`. -/
def isLeap (y : Nat) : Bool :=
  (y % 4 == 0 && y % 100 != 0) || y % 400 == 0

/-- Number of days `datetime` accepts for the given month of the given year. -/
def daysInMonth (y m : Nat) : Nat :=
  if m = 2 then (if isLeap y then 29 else 28)
  else if m = 4 ∨ m = 6 ∨ m = 9 ∨ m = 11 then 30
  else 31

/-- A decoded observation timestamp: either a calendar instant built by
`datetime(year, month, day, hour, minute, tzinfo=timezone.utc)`, or an
externally supplied instant — the caller's `session_time`, or the wall clock
read by `datetime.now(timezone.utc)` (the clock reading is the explicit
argument `now` in this development). -/
inductive Timestamp where
  | cal (year month day hour minute : Nat)
  | inst (t : Int)
deriving DecidableEq

/-- Lines 204–211 of `eucaws_decoder.py`: range-check the calendar fields,
build the datetime (whose constructor itself rejects impossible days such as
April 31, also caught by the same `except ValueError`), and on failure fall
back to `session_time` if supplied, else to the current time. -/
def composeTimestamp (year month day hour minute : Nat)
    (session_time : Option Int) (now : Int) : Timestamp :=
  if 1 ≤ month ∧ month ≤ 12 ∧ 1 ≤ day ∧ day ≤ 31 ∧ hour ≤ 23 ∧ minute ≤ 59
      ∧ day ≤ daysInMonth year month then
    .cal year month day hour minute
  else
    match session_time with
    | some t => .inst t
    | none => .inst now

/-- The `result` dictionary built by `decode_eucaws_payload`: one optional
field per decoded quantity, all initially absent (`None`), numeric physical
values as exact rationals. -/
structure DecodeResult where
  is_decoded : Bool := false
  decode_error : Option String := none
  decoder_version : String := "E-SURFMAR Format #100 Official v1.9"
  format_version : Option Nat := none
  timestamp : Option Timestamp := none
  latitude : Option ℚ := none
  longitude : Option ℚ := none
  barometric_pressure : Option ℚ := none
  msl_pressure : Option ℚ := none
  pressure_tendency_3h : Option ℚ := none
  pressure_tendency_char : Option Nat := none
  wind_direction_true : Option ℚ := none
  wind_speed_ms : Option ℚ := none
  wind_speed_knots : Option ℚ := none
  wind_direction_relative : Option ℚ := none
  wind_speed_relative : Option ℚ := none
  wind_gust_speed : Option ℚ := none
  wind_gust_direction : Option ℚ := none
  air_temperature : Option ℚ := none
  sea_temperature : Option ℚ := none
  relative_humidity : Option ℚ := none
  battery_voltage : Option ℚ := none
  processor_temperature : Option ℚ := none
  gps_height : Option ℚ := none
  ship_course : Option ℚ := none
  ship_speed : Option ℚ := none
  ship_heading : Option ℚ := none
  draft : Option ℚ := none
  callsign_encrypted : Option Bool := none
  has_visual_obs : Bool := false
  has_wave_obs : Bool := false
  has_ice_obs : Bool := false
  has_other_obs : Bool := false
deriving DecidableEq

/-- The freshly initialised `result` dictionary of lines 80–136. -/
def initResult : DecodeResult := {}

/-- Field 3, `ship_course`: 7 bits, slope 5; `0x7F` treated as missing. -/
def ship_course_val (cog_raw : Nat) : Option ℚ :=
  if cog_raw = 0x7F then none else some ((cog_raw : ℚ) * 5.0)

/-- Field 4, `ship_speed`: 6 bits, slope 0.5; `0x3F` treated as missing. -/
def ship_speed_val (sog_raw : Nat) : Option ℚ :=
  if sog_raw = 0x3F then none else some ((sog_raw : ℚ) * 0.5)

/-- Field 5, `ship_heading`: 7 bits, slope 5; `0x7F` treated as missing. -/
def ship_heading_val (hdt_raw : Nat) : Option ℚ :=
  if hdt_raw = 0x7F then none else some ((hdt_raw : ℚ) * 5.0)

/-- Field 6, `draft`: 5 bits signed, slope 1, offset −10; the code treats the
signed value −16 as missing (its comment claims −16 is "all 1s"). -/
def draft_val (draft_raw : Int) : Option ℚ :=
  if draft_raw = -16 then none else some ((draft_raw : ℚ) * 1.0 - 10.0)

/-- Field `latitude`: 15 bits signed, slope 0.01, offset −90; the code treats the
signed value −16384 as missing. -/
def latitude_val (lat_raw : Int) : Option ℚ :=
  if lat_raw = -16384 then none else some ((lat_raw : ℚ) * 0.01 - 90.0)

/-- Field `longitude`: 16 bits signed, slope 0.01, offset −180; the code treats the
signed value −32768 as missing. -/
def longitude_val (lon_raw : Int) : Option ℚ :=
  if lon_raw = -32768 then none else some ((lon_raw : ℚ) * 0.01 - 180.0)

/-- Field `barometric_pressure`: 11 bits, Pa = raw·10 + 85000, reported in hPa. -/
def barometric_pressure_val (press_raw : Nat) : Option ℚ :=
  if press_raw = 0x7FF then none else some (((press_raw : ℚ) * 10 + 85000) / 100)

/-- Field `msl_pressure`: 11 bits, Pa = raw·10 + 85000, reported in hPa. -/
def msl_pressure_val (mslp_raw : Nat) : Option ℚ :=
  if mslp_raw = 0x7FF then none else some (((mslp_raw : ℚ) * 10 + 85000) / 100)

/-- Field `pressure_tendency_3h`: 10 bits signed, Pa = raw·10 − 5000, in hPa; the
code treats the signed value −512 as missing. -/
def pressure_tendency_3h_val (ppp_raw : Int) : Option ℚ :=
  if ppp_raw = -512 then none else some (((ppp_raw : ℚ) * 10 - 5000) / 100)

/-- Field `pressure_tendency_char`: 4 bits, code value kept as-is; 0xF missing. -/
def pressure_tendency_char_val (a_raw : Nat) : Option Nat :=
  if a_raw = 0xF then none else some a_raw

/-- Field `wind_direction_true`: 7 bits, slope 5; `0x7F` missing. -/
def wind_direction_true_val (dd_raw : Nat) : Option ℚ :=
  if dd_raw = 0x7F then none else some ((dd_raw : ℚ) * 5.0)

/-- Field `wind_speed_ms`: 10 bits, slope 0.1 m/s; `0x3FF` missing. -/
def wind_speed_ms_val (ff_raw : Nat) : Option ℚ :=
  if ff_raw = 0x3FF then none else some ((ff_raw : ℚ) * 0.1)

/-- Field `wind_speed_knots`: the m/s value further multiplied by 1.94384. -/
def wind_speed_knots_val (ff_raw : Nat) : Option ℚ :=
  if ff_raw = 0x3FF then none else some ((ff_raw : ℚ) * 0.1 * 1.94384)

/-- Field `wind_direction_relative`: 7 bits, slope 5; `0x7F` missing. -/
def wind_direction_relative_val (rwd_raw : Nat) : Option ℚ :=
  if rwd_raw = 0x7F then none else some ((rwd_raw : ℚ) * 5.0)

/-- Field `wind_speed_relative`: 8 bits, slope 0.5; `0xFF` missing. -/
def wind_speed_relative_val (rws_raw : Nat) : Option ℚ :=
  if rws_raw = 0xFF then none else some ((rws_raw : ℚ) * 0.5)

/-- Field `wind_gust_speed`: 8 bits, slope 0.5; `0xFF` missing. -/
def wind_gust_speed_val (ffmax_raw : Nat) : Option ℚ :=
  if ffmax_raw = 0xFF then none else some ((ffmax_raw : ℚ) * 0.5)

/-- Field `wind_gust_direction`: 7 bits, slope 5; `0x7F` missing. -/
def wind_gust_direction_val (ddmax_raw : Nat) : Option ℚ :=
  if ddmax_raw = 0x7F then none else some ((ddmax_raw : ℚ) * 5.0)

/-- Field `air_temperature`: 10 bits, K = raw·0.1 + 223.2, reported in °C. -/
def air_temperature_val (ta_raw : Nat) : Option ℚ :=
  if ta_raw = 0x3FF then none else some ((ta_raw : ℚ) * 0.1 + 223.2 - 273.15)

/-- Field `relative_humidity`: 10 bits, slope 0.1 %; `0x3FF` missing. -/
def relative_humidity_val (u_raw : Nat) : Option ℚ :=
  if u_raw = 0x3FF then none else some ((u_raw : ℚ) * 0.1)

/-- Field `sea_temperature`: 12 bits, K = raw·0.01 + 268.15, reported in °C. -/
def sea_temperature_val (sst_raw : Nat) : Option ℚ :=
  if sst_raw = 0xFFF then none else some ((sst_raw : ℚ) * 0.01 + 268.15 - 273.15)

/-- Field `battery_voltage`: 7 bits, V = raw·0.2 + 5.0; `0x7F` missing. -/
def battery_voltage_val (vbat_raw : Nat) : Option ℚ :=
  if vbat_raw = 0x7F then none else some ((vbat_raw : ℚ) * 0.2 + 5.0)

/-- Field `processor_temperature`: 8 bits, K = raw·0.5 + 233.15, in °C. -/
def processor_temperature_val (tproc_raw : Nat) : Option ℚ :=
  if tproc_raw = 0xFF then none else some ((tproc_raw : ℚ) * 0.5 + 233.15 - 273.15)

/-- Field `gps_height`: 8 bits signed, slope 1, offset −50; the code treats the
signed value −128 as missing. -/
def gps_height_val (gps_h_raw : Int) : Option ℚ :=
  if gps_h_raw = -128 then none else some ((gps_h_raw : ℚ) * 1.0 - 50.0)

/-- Error text of line 143: payload shorter than the 30-byte minimum. -/
def tooShortMsg (n : Nat) : String :=
  "Payload too short: " ++ toString n ++ " bytes (expected minimum 30)"

/-- Error text of line 155: leading format identifier is not 100. -/
def invalidFormatMsg (fid : Nat) : String :=
  "Invalid format ID: " ++ toString fid ++ " (expected 100 for S-AWS)"

/-- The body of the `try:` block of `decode_eucaws_payload` after hex
conversion, operating on the payload bytes.  Field order, bit widths,
signedness, sentinel checks, and scale/offset arithmetic follow lines
142–340 of `eucaws_decoder.py` exactly (the per-field formulas are the
`…_val` functions above); any `ValueError` raised by the bit reader surfaces
as `Except.error`. -/
def decodeCore (bs : List Nat) (session_time : Option Int) (now : Int) :
    Except String DecodeResult := do
  if bs.length < 30 then
    return { initResult with decode_error := some (tooShortMsg bs.length) }
  let (format_id, p1) ← read_bits bs 8 0
  if format_id ≠ 100 then
    return { initResult with format_version := some format_id,
                             decode_error := some (invalidFormatMsg format_id) }
  let (callsign_encrypted_bit, p2) ← read_bits bs 1 p1
  let (cog_raw, p3) ← read_bits bs 7 p2
  let (sog_raw, p4) ← read_bits bs 6 p3
  let (hdt_raw, p5) ← read_bits bs 7 p4
  let (draft_raw, p6) ← read_signed_bits bs 5 p5
  let (year_raw, p7) ← read_bits bs 7 p6
  let (month, p8) ← read_bits bs 4 p7
  let (day, p9) ← read_bits bs 6 p8
  let (hour, p10) ← read_bits bs 5 p9
  let (minute, p11) ← read_bits bs 6 p10
  let (lat_raw, p12) ← read_signed_bits bs 15 p11
  let (lon_raw, p13) ← read_signed_bits bs 16 p12
  let (press_raw, p14) ← read_bits bs 11 p13
  let (mslp_raw, p15) ← read_bits bs 11 p14
  let (ppp_raw, p16) ← read_signed_bits bs 10 p15
  let (a_raw, p17) ← read_bits bs 4 p16
  let (dd_raw, p18) ← read_bits bs 7 p17
  let (ff_raw, p19) ← read_bits bs 10 p18
  let (rwd_raw, p20) ← read_bits bs 7 p19
  let (rws_raw, p21) ← read_bits bs 8 p20
  let (ffmax_raw, p22) ← read_bits bs 8 p21
  let (ddmax_raw, p23) ← read_bits bs 7 p22
  let (ta_raw, p24) ← read_bits bs 10 p23
  let (u_raw, p25) ← read_bits bs 10 p24
  let (sst_raw, p26) ← read_bits bs 12 p25
  let (vbat_raw, p27) ← read_bits bs 7 p26
  let (tproc_raw, p28) ← read_bits bs 8 p27
  let (gps_h_raw, p29) ← read_signed_bits bs 8 p28
  let (vis_bit, p30) ← read_bits bs 1 p29
  let (wave_bit, p31) ← read_bits bs 1 p30
  let (ice_bit, p32) ← read_bits bs 1 p31
  let (other_bit, _) ← read_bits bs 1 p32
  return { initResult with
    is_decoded := true
    format_version := some format_id
    callsign_encrypted := some (callsign_encrypted_bit == 0)
    ship_course := ship_course_val cog_raw
    ship_speed := ship_speed_val sog_raw
    ship_heading := ship_heading_val hdt_raw
    draft := draft_val draft_raw
    timestamp := some (composeTimestamp (year_raw + 2000) month day hour minute
      session_time now)
    latitude := latitude_val lat_raw
    longitude := longitude_val lon_raw
    barometric_pressure := barometric_pressure_val press_raw
    msl_pressure := msl_pressure_val mslp_raw
    pressure_tendency_3h := pressure_tendency_3h_val ppp_raw
    pressure_tendency_char := pressure_tendency_char_val a_raw
    wind_direction_true := wind_direction_true_val dd_raw
    wind_speed_ms := wind_speed_ms_val ff_raw
    wind_speed_knots := wind_speed_knots_val ff_raw
    wind_direction_relative := wind_direction_relative_val rwd_raw
    wind_speed_relative := wind_speed_relative_val rws_raw
    wind_gust_speed := wind_gust_speed_val ffmax_raw
    wind_gust_direction := wind_gust_direction_val ddmax_raw
    air_temperature := air_temperature_val ta_raw
    relative_humidity := relative_humidity_val u_raw
    sea_temperature := sea_temperature_val sst_raw
    battery_voltage := battery_voltage_val vbat_raw
    processor_temperature := processor_temperature_val tproc_raw
    gps_height := gps_height_val gps_h_raw
    has_visual_obs := vis_bit != 0
    has_wave_obs := wave_bit != 0
    has_ice_obs := ice_bit != 0
    has_other_obs := other_bit != 0 }

/-- The byte-level decoder with the outer `except Exception` boundary of
lines 342–344: any raised error becomes `decode_error` on the initial
result. -/
def decodeBytes (bs : List Nat) (session_time : Option Int) (now : Int) :
    DecodeResult :=
  match decodeCore bs session_time now with
  | .ok r => r
  | .error e => { initResult with decode_error := some e }

/-- Normal form of a successful decode of a well-formed (≥ 30 bytes, format
identifier 100) payload: every field is the `…_val` formula applied to the
raw bits at that field's fixed offset in the layout. -/
def mkResult (bs : List Nat) (session_time : Option Int) (now : Int) : DecodeResult :=
  { initResult with
    is_decoded := true
    format_version := some (getRaw bs 0 8)
    callsign_encrypted := some (getRaw bs 8 1 == 0)
    ship_course := ship_course_val (getRaw bs 9 7)
    ship_speed := ship_speed_val (getRaw bs 16 6)
    ship_heading := ship_heading_val (getRaw bs 22 7)
    draft := draft_val (getRawSigned bs 29 5)
    timestamp := some (composeTimestamp (getRaw bs 34 7 + 2000) (getRaw bs 41 4)
      (getRaw bs 45 6) (getRaw bs 51 5) (getRaw bs 56 6) session_time now)
    latitude := latitude_val (getRawSigned bs 62 15)
    longitude := longitude_val (getRawSigned bs 77 16)
    barometric_pressure := barometric_pressure_val (getRaw bs 93 11)
    msl_pressure := msl_pressure_val (getRaw bs 104 11)
    pressure_tendency_3h := pressure_tendency_3h_val (getRawSigned bs 115 10)
    pressure_tendency_char := pressure_tendency_char_val (getRaw bs 125 4)
    wind_direction_true := wind_direction_true_val (getRaw bs 129 7)
    wind_speed_ms := wind_speed_ms_val (getRaw bs 136 10)
    wind_speed_knots := wind_speed_knots_val (getRaw bs 136 10)
    wind_direction_relative := wind_direction_relative_val (getRaw bs 146 7)
    wind_speed_relative := wind_speed_relative_val (getRaw bs 153 8)
    wind_gust_speed := wind_gust_speed_val (getRaw bs 161 8)
    wind_gust_direction := wind_gust_direction_val (getRaw bs 169 7)
    air_temperature := air_temperature_val (getRaw bs 176 10)
    relative_humidity := relative_humidity_val (getRaw bs 186 10)
    sea_temperature := sea_temperature_val (getRaw bs 196 12)
    battery_voltage := battery_voltage_val (getRaw bs 208 7)
    processor_temperature := processor_temperature_val (getRaw bs 215 8)
    gps_height := gps_height_val (getRawSigned bs 223 8)
    has_visual_obs := getRaw bs 231 1 != 0
    has_wave_obs := getRaw bs 232 1 != 0
    has_ice_obs := getRaw bs 233 1 != 0
    has_other_obs := getRaw bs 234 1 != 0 }

/-- Value of an ASCII hex digit, if the character is one. -/
def hexDigit (c : Char) : Option Nat :=
  if '0' ≤ c ∧ c ≤ '9' then some (c.toNat - 48)
  else if 'a' ≤ c ∧ c ≤ 'f' then some (c.toNat - 87)
  else if 'A' ≤ c ∧ c ≤ 'F' then some (c.toNat - 55)
  else none

/-- Model of the builtin `bytes.fromhex` used at line 140: pairs of hex
digits, spaces between bytes skipped, anything else — including an odd
trailing digit — raising `ValueError`. -/
def fromHexAux : List Char → Except String (List Nat)
  | [] => .ok []
  | c :: cs =>
    if c = ' ' then fromHexAux cs
    else
      match cs with
      | [] => .error "non-hexadecimal number found in fromhex() arg"
      | c2 :: cs2 =>
        match hexDigit c, hexDigit c2 with
        | some hi, some lo => (fromHexAux cs2).map fun bs => (hi * 16 + lo) :: bs
        | _, _ => .error "non-hexadecimal number found in fromhex() arg"

/-- Model of `bytes.fromhex` on a string. -/
def fromHex (s : String) : Except String (List Nat) :=
  fromHexAux s.data

/-- A Python argument that may be a `str` or a `bytes` object: the decoder's
signature declares `payload_hex: str`, but Python does not enforce it and
`socket_server.py` in fact passes `bytes`. -/
inductive PyStrOrBytes where
  | str (s : String)
  | bytes (b : List Nat)

/-- Model of `bytes.fromhex(arg)` on a dynamically typed argument: on a `bytes`
argument the builtin raises
`TypeError: fromhex() argument must be str, not bytes`. -/
def fromhexArg : PyStrOrBytes → Except String (List Nat)
  | .str s => fromHex s
  | .bytes _ => .error "fromhex() argument must be str, not bytes"

/-- Model of `decode_eucaws_payload(payload_hex, session_time=None)`: hex-decode the
argument and run the bit-level decoder, with the single outer
`except Exception` of lines 342–344 converting any raised error into
`decode_error` on the otherwise untouched initial result.  The wall-clock
reading used when a bad calendar value must be replaced and no
`session_time` was supplied is the explicit `now` argument. -/
def decode_eucaws_payload (arg : PyStrOrBytes) (session_time : Option Int)
    (now : Int) : DecodeResult :=
  match fromhexArg arg with
  | .error e => { initResult with decode_error := some e }
  | .ok bs => decodeBytes bs session_time now

/-- Big-endian 16-bit value, `struct.unpack('>H', …)`. -/
def be16 (b0 b1 : Nat) : Nat := b0 * 256 + b1

/-- Big-endian 32-bit value, `struct.unpack('>I', …)`. -/
def be32 (b0 b1 b2 b3 : Nat) : Nat := ((b0 * 256 + b1) * 256 + b2) * 256 + b3

/-- Big-endian signed 32-bit value, `struct.unpack('>i', …)`:
two's complement of the unsigned read. -/
def sbe32 (b0 b1 b2 b3 : Nat) : Int :=
  if (be32 b0 b1 b2 b3).testBit 31 then (be32 b0 b1 b2 b3 : Int) - 2 ^ 32
  else (be32 b0 b1 b2 b3 : Int)

/-- Model of `bytes.decode('ascii', errors='ignore')`: non-ASCII bytes are dropped,
the rest become their characters. -/
def asciiIgnore (bs : List Nat) : List Char :=
  (bs.filter (· < 128)).map Char.ofNat

/-- Characters removed by Python `str.strip()` with no argument. -/
def isPySpace (c : Char) : Bool :=
  c = ' ' || c = '\t' || c = '\n' || c = '\r' || c.toNat = 11 || c.toNat = 12

/-- Python `str.strip()`: drop leading and trailing whitespace. -/
def pyStrip (cs : List Char) : String :=
  String.mk (((cs.dropWhile isPySpace).reverse.dropWhile isPySpace).reverse)

/-- Python `str.isprintable()` on a string of ASCII characters: true (also
for the empty string) iff every character is in the printable range
0x20–0x7E. -/
def isPrintableAscii (cs : List Char) : Bool :=
  cs.all fun c => decide (32 ≤ c.toNat ∧ c.toNat ≤ 126)

/-- The `parsed_data` dictionary of `IridiumSBDParser`: every key that the
code may set, absent (`none`) until set.  `session_time` is the Unix-second
instant handed to `datetime.fromtimestamp`; `payload_hex` keeps the raw
payload bytes (`data.hex()` is a bijection on bytes, so the bytes are the
faithful model of the hex string). -/
structure ParsedData where
  protocol_revision : Option Nat := none
  message_length : Option Nat := none
  cdr_reference : Option Nat := none
  imei : Option String := none
  session_status : Option Nat := none
  momsn : Option Nat := none
  mtmsn : Option Nat := none
  session_time : Option Int := none
  payload_hex : Option (List Nat) := none
  decoded_payload : Option String := none
  latitude : Option ℚ := none
  longitude : Option ℚ := none
  cep_radius : Option Nat := none
  confirmation_status : Option Nat := none
  is_parsed : Option Bool := none
  parse_error : Option String := none
deriving DecidableEq

/-- Model of `IridiumSBDParser._parse_header`: an element body shorter than 28 bytes
is ignored; otherwise CDR reference, IMEI (ASCII, trimmed), session status,
MOMSN, MTMSN and session time are read at fixed offsets. -/
def parseHeaderIE (body : List Nat) (st : ParsedData) : ParsedData :=
  if body.length < 28 then st
  else
    { st with
      cdr_reference := some (be32 (body.getD 0 0) (body.getD 1 0) (body.getD 2 0)
        (body.getD 3 0))
      imei := some (pyStrip (asciiIgnore ((body.drop 4).take 15)))
      session_status := some (body.getD 19 0)
      momsn := some (be16 (body.getD 20 0) (body.getD 21 0))
      mtmsn := some (be16 (body.getD 22 0) (body.getD 23 0))
      session_time := some ((be32 (body.getD 24 0) (body.getD 25 0) (body.getD 26 0)
        (body.getD 27 0) : Int)) }

/-- Model of `IridiumSBDParser._parse_payload`: keep the payload bytes verbatim plus
a printable-ASCII diagnostic rendering. -/
def parsePayloadIE (body : List Nat) (st : ParsedData) : ParsedData :=
  { st with
    payload_hex := some body
    decoded_payload := some (if isPrintableAscii (asciiIgnore body)
      then String.mk (asciiIgnore body)
      else "Binary data (" ++ toString body.length ++ " bytes)") }

/-- Model of `IridiumSBDParser._parse_location`: an element body shorter than 11
bytes is ignored; otherwise latitude/longitude (signed 32-bit, microdegrees)
and the CEP radius are read after one reserved byte. -/
def parseLocationIE (body : List Nat) (st : ParsedData) : ParsedData :=
  if body.length < 11 then st
  else
    { st with
      latitude := some ((sbe32 (body.getD 1 0) (body.getD 2 0) (body.getD 3 0)
        (body.getD 4 0) : ℚ) / 1000000)
      longitude := some ((sbe32 (body.getD 5 0) (body.getD 6 0) (body.getD 7 0)
        (body.getD 8 0) : ℚ) / 1000000)
      cep_radius := some (be16 (body.getD 9 0) (body.getD 10 0)) }

/-- Model of `IridiumSBDParser._parse_confirmation`: an empty body is ignored;
otherwise the first byte is the confirmation status. -/
def parseConfirmationIE (body : List Nat) (st : ParsedData) : ParsedData :=
  match body with
  | [] => st
  | b :: _ => { st with confirmation_status := some b }

/-- Dispatch on the information-element identifier (lines 60–67);
unrecognized identifiers are skipped with their bytes consumed. -/
def handleIE (ie_id : Nat) (body : List Nat) (st : ParsedData) : ParsedData :=
  if ie_id = 1 then parseHeaderIE body st
  else if ie_id = 2 then parsePayloadIE body st
  else if ie_id = 3 then parseLocationIE body st
  else if ie_id = 5 then parseConfirmationIE body st
  else st

/-- The element-scanning loop of `IridiumSBDParser.parse` (lines 45–67):
while at least 3 bytes remain read a type byte and a big-endian length, stop
if the declared body would overrun the remaining bytes, otherwise consume
the body and dispatch on the type. -/
def parseIEs (rest : List Nat) (st : ParsedData) : ParsedData :=
  match rest with
  | ie_id :: l1 :: l2 :: tail =>
    if tail.length < be16 l1 l2 then st
    else parseIEs (tail.drop (be16 l1 l2)) (handleIE ie_id (tail.take (be16 l1 l2)) st)
  | _ => st
termination_by rest.length
decreasing_by
  simp only [List.length_drop, List.length_cons]
  omega

/-- Model of `IridiumSBDParser.parse` via `parse_iridium_message`: reject a buffer of
fewer than 3 bytes with the `Message too short` error (the only raising
statement — every later step indexes slices that cannot fail); otherwise
record protocol revision and declared length, scan the elements, and mark
`is_parsed = True`. -/
def parse_iridium_message (data : List Nat) : ParsedData :=
  if data.length < 3 then
    { is_parsed := some false, parse_error := some "Message too short" }
  else
    let st := parseIEs (data.drop 3)
      { protocol_revision := some (data.getD 0 0)
        message_length := some (be16 (data.getD 1 0) (data.getD 2 0)) }
    { st with is_parsed := some true }

/-- A well-formed TLV element: type byte, big-endian body length, body. -/
def encodeIE (ie_id : Nat) (body : List Nat) : List Nat :=
  ie_id :: body.length / 256 :: body.length % 256 :: body

/-- Concatenation of well-formed TLV elements. -/
def encodeIEs : List (Nat × List Nat) → List Nat
  | [] => []
  | e :: es => encodeIE e.1 e.2 ++ encodeIEs es

/-- A buffer whose leading element is truncated: fewer than 3 bytes remain
for the element header, or the declared length overruns the remaining
bytes.  The empty buffer satisfies this trivially (the scan just ends). -/
def truncatedIE : List Nat → Prop
  | _ :: l1 :: l2 :: tail => tail.length < be16 l1 l2
  | _ => True

/-- The sensor-payload candidate selection of
`SatelliteSocketServer.handle_client` (lines 73–81): the Payload element's
bytes when the envelope carried a (non-empty, since Python tests the hex
string's truthiness) Payload element, otherwise the raw message bytes when
they are exactly 30 bytes long. -/
def sensorCandidate (envPayload : Option (List Nat)) (data : List Nat) :
    Option (List Nat) :=
  match envPayload with
  | some p =>
    if p.isEmpty then (if data.length = 30 then some data else none) else some p
  | none => if data.length = 30 then some data else none

/-- The codec invocation of `handle_client` (lines 84–86): when a candidate
of exactly 30 bytes exists, the code calls
`decode_eucaws_payload(eucaws_payload)` — passing the candidate as a `bytes`
object and leaving `session_time` at its `None` default, whatever the
envelope's session time was. -/
def handle_client_eucaws (envPayload : Option (List Nat)) (data : List Nat)
    (now : Int) : Option DecodeResult :=
  match sensorCandidate envPayload data with
  | some c =>
    if c.length = 30 then some (decode_eucaws_payload (.bytes c) none now) else none
  | none => none

/-- The reference payload of the decoder's self-test block, as a hex
string. -/
def refHex : String :=
  "648003fb4ce06b01bfd21f5dd9beef9bffffffffffff97ed5fffc0f1fe00"

/-- The reference payload's 30 bytes. -/
def refBytes : List Nat :=
  [0x64, 0x80, 0x03, 0xfb, 0x4c, 0xe0, 0x6b, 0x01, 0xbf, 0xd2,
   0x1f, 0x5d, 0xd9, 0xbe, 0xef, 0x9b, 0xff, 0xff, 0xff, 0xff,
   0xff, 0xff, 0x97, 0xed, 0x5f, 0xff, 0xc0, 0xf1, 0xfe, 0x00]

/-- A 30-byte payload with format identifier 100 whose remaining 227 bits
are all ones: every field after the format identifier carries its all-bits-
set missing-data pattern. -/
def allOnesPayload : List Nat := 0x64 :: List.replicate 29 0xFF

/-- A 30-byte payload with format identifier 100, draft raw bits `10000`
(two's-complement −16, the field's most negative value), and all other bits
zero. -/
def minDraftPayload : List Nat := [0x64, 0x00, 0x00, 0x04] ++ List.replicate 26 0

/-- A 30-byte payload with format identifier 100, draft raw bits `00101`
(value 5), and all other bits zero. -/
def midDraftPayload : List Nat := [0x64, 0x00, 0x00, 0x01, 0x40] ++ List.replicate 25 0

instance instDecTruncatedIE : (l : List Nat) → Decidable (truncatedIE l)
  | [] => .isTrue trivial
  | [_] => .isTrue trivial
  | [_, _] => .isTrue trivial
  | _ :: _ :: _ :: _ => Nat.decLt _ _

theorem read_bits_aux_eq (data : List Nat) :
    ∀ n acc pos, pos + n ≤ 8 * data.length →
      read_bits_aux data n acc pos = .ok (getRawAux data n acc pos, pos + n)
  | 0, acc, pos, _ => rfl
  | n + 1, acc, pos, h => by
    have hb : ¬ data.length ≤ pos / 8 := by omega
    rw [read_bits_aux, if_neg hb, read_bits_aux_eq data n _ (pos + 1) (by omega)]
    have harith : pos + 1 + n = pos + (n + 1) := by omega
    rw [harith]
    rfl

/-- A bit-field read that stays inside the buffer succeeds and returns the
MSB-first value of those bits, advancing the cursor by `n`. -/
theorem read_bits_eq (data : List Nat) (n pos : Nat) (h : pos + n ≤ 8 * data.length) :
    read_bits data n pos = .ok (getRaw data pos n, pos + n) :=
  read_bits_aux_eq data n 0 pos h

theorem read_signed_bits_eq (data : List Nat) (n pos : Nat)
    (h : pos + n ≤ 8 * data.length) :
    read_signed_bits data n pos = .ok (getRawSigned data pos n, pos + n) := by
  rw [read_signed_bits, read_bits_eq data n pos h]
  rfl


/-- Reduction of monadic bind on an `Except.ok`, for unfolding the decoder. -/
theorem ok_bind {ε α β : Type} (a : α) (f : α → Except ε β) :
    (Except.ok a : Except ε α) >>= f = f a := rfl

/-- Reduction of `pure` on `Except` to `Except.ok`. -/
theorem pure_eq_ok {ε α : Type} (a : α) : (pure a : Except ε α) = .ok a := rfl

/-- A payload of fewer than 30 bytes is rejected up front: decode success
stays false, the error names the byte count, and no other field is touched. -/
theorem decodeBytes_short (bs : List Nat) (session_time : Option Int) (now : Int)
    (h : bs.length < 30) :
    decodeBytes bs session_time now =
      { initResult with decode_error := some (tooShortMsg bs.length) } := by
  rw [decodeBytes, decodeCore]
  simp [h, pure_eq_ok]

/-- A payload of at least 30 bytes whose leading 8 bits are not 100 is
rejected right after the format read: only `format_version` is populated,
together with the format-mismatch error. -/
theorem decodeBytes_badFormat (bs : List Nat) (session_time : Option Int) (now : Int)
    (h : 30 ≤ bs.length) (hf : getRaw bs 0 8 ≠ 100) :
    decodeBytes bs session_time now =
      { initResult with format_version := some (getRaw bs 0 8),
                        decode_error := some (invalidFormatMsg (getRaw bs 0 8)) } := by
  have h30 : ¬ bs.length < 30 := by omega
  have e1 : read_bits bs 8 0 = .ok (getRaw bs 0 8, 8) := read_bits_eq bs 8 0 (by omega)
  rw [decodeBytes, decodeCore]
  simp [h30, e1, hf, ok_bind, pure_eq_ok]

/-- Master normalisation: any payload of at least 30 bytes whose format
identifier decodes to 100 decodes successfully, every field being the
documented formula applied to its fixed bit range. -/
theorem decodeBytes_eq_mkResult (bs : List Nat) (session_time : Option Int) (now : Int)
    (h : 30 ≤ bs.length) (hf : getRaw bs 0 8 = 100) :
    decodeBytes bs session_time now = mkResult bs session_time now := by
  have h30 : ¬ bs.length < 30 := by omega
  have hlen : 240 ≤ 8 * bs.length := by omega
  have e1 : read_bits bs 8 0 = .ok (getRaw bs 0 8, 8) := read_bits_eq bs 8 0 (by omega)
  have e2 : read_bits bs 1 8 = .ok (getRaw bs 8 1, 9) := read_bits_eq bs 1 8 (by omega)
  have e3 : read_bits bs 7 9 = .ok (getRaw bs 9 7, 16) := read_bits_eq bs 7 9 (by omega)
  have e4 : read_bits bs 6 16 = .ok (getRaw bs 16 6, 22) := read_bits_eq bs 6 16 (by omega)
  have e5 : read_bits bs 7 22 = .ok (getRaw bs 22 7, 29) := read_bits_eq bs 7 22 (by omega)
  have e6 : read_signed_bits bs 5 29 = .ok (getRawSigned bs 29 5, 34) :=
    read_signed_bits_eq bs 5 29 (by omega)
  have e7 : read_bits bs 7 34 = .ok (getRaw bs 34 7, 41) := read_bits_eq bs 7 34 (by omega)
  have e8 : read_bits bs 4 41 = .ok (getRaw bs 41 4, 45) := read_bits_eq bs 4 41 (by omega)
  have e9 : read_bits bs 6 45 = .ok (getRaw bs 45 6, 51) := read_bits_eq bs 6 45 (by omega)
  have e10 : read_bits bs 5 51 = .ok (getRaw bs 51 5, 56) := read_bits_eq bs 5 51 (by omega)
  have e11 : read_bits bs 6 56 = .ok (getRaw bs 56 6, 62) := read_bits_eq bs 6 56 (by omega)
  have e12 : read_signed_bits bs 15 62 = .ok (getRawSigned bs 62 15, 77) :=
    read_signed_bits_eq bs 15 62 (by omega)
  have e13 : read_signed_bits bs 16 77 = .ok (getRawSigned bs 77 16, 93) :=
    read_signed_bits_eq bs 16 77 (by omega)
  have e14 : read_bits bs 11 93 = .ok (getRaw bs 93 11, 104) := read_bits_eq bs 11 93 (by omega)
  have e15 : read_bits bs 11 104 = .ok (getRaw bs 104 11, 115) := read_bits_eq bs 11 104 (by omega)
  have e16 : read_signed_bits bs 10 115 = .ok (getRawSigned bs 115 10, 125) :=
    read_signed_bits_eq bs 10 115 (by omega)
  have e17 : read_bits bs 4 125 = .ok (getRaw bs 125 4, 129) := read_bits_eq bs 4 125 (by omega)
  have e18 : read_bits bs 7 129 = .ok (getRaw bs 129 7, 136) := read_bits_eq bs 7 129 (by omega)
  have e19 : read_bits bs 10 136 = .ok (getRaw bs 136 10, 146) := read_bits_eq bs 10 136 (by omega)
  have e20 : read_bits bs 7 146 = .ok (getRaw bs 146 7, 153) := read_bits_eq bs 7 146 (by omega)
  have e21 : read_bits bs 8 153 = .ok (getRaw bs 153 8, 161) := read_bits_eq bs 8 153 (by omega)
  have e22 : read_bits bs 8 161 = .ok (getRaw bs 161 8, 169) := read_bits_eq bs 8 161 (by omega)
  have e23 : read_bits bs 7 169 = .ok (getRaw bs 169 7, 176) := read_bits_eq bs 7 169 (by omega)
  have e24 : read_bits bs 10 176 = .ok (getRaw bs 176 10, 186) := read_bits_eq bs 10 176 (by omega)
  have e25 : read_bits bs 10 186 = .ok (getRaw bs 186 10, 196) := read_bits_eq bs 10 186 (by omega)
  have e26 : read_bits bs 12 196 = .ok (getRaw bs 196 12, 208) := read_bits_eq bs 12 196 (by omega)
  have e27 : read_bits bs 7 208 = .ok (getRaw bs 208 7, 215) := read_bits_eq bs 7 208 (by omega)
  have e28 : read_bits bs 8 215 = .ok (getRaw bs 215 8, 223) := read_bits_eq bs 8 215 (by omega)
  have e29 : read_signed_bits bs 8 223 = .ok (getRawSigned bs 223 8, 231) :=
    read_signed_bits_eq bs 8 223 (by omega)
  have e30 : read_bits bs 1 231 = .ok (getRaw bs 231 1, 232) := read_bits_eq bs 1 231 (by omega)
  have e31 : read_bits bs 1 232 = .ok (getRaw bs 232 1, 233) := read_bits_eq bs 1 232 (by omega)
  have e32 : read_bits bs 1 233 = .ok (getRaw bs 233 1, 234) := read_bits_eq bs 1 233 (by omega)
  have e33 : read_bits bs 1 234 = .ok (getRaw bs 234 1, 235) := read_bits_eq bs 1 234 (by omega)
  rw [decodeBytes, decodeCore]
  simp only [h30, hf, mkResult, ok_bind, pure_eq_ok, ite_false, ite_true, ne_eq,
    eq_self_iff_true, not_true, if_false, if_true, reduceIte,
    e1, e2, e3, e4, e5, e6, e7, e8, e9, e10, e11, e12, e13, e14, e15,
    e16, e17, e18, e19, e20, e21, e22, e23, e24, e25, e26, e27, e28, e29, e30,
    e31, e32, e33]

/-- The element scan ignores a trailing truncated element. -/
theorem parseIEs_truncated (junk : List Nat) (st : ParsedData)
    (hj : truncatedIE junk) : parseIEs junk st = st := by
  match junk with
  | [] => simp [parseIEs]
  | [_] => simp [parseIEs]
  | [_, _] => simp [parseIEs]
  | _ :: l1 :: l2 :: tail =>
    rw [parseIEs]
    exact if_pos hj

/-- Scanning a well-formed element followed by anything dispatches the
element and continues with the remainder. -/
theorem parseIEs_cons (ie_id : Nat) (body rest : List Nat) (st : ParsedData) :
    parseIEs (encodeIE ie_id body ++ rest) st =
      parseIEs rest (handleIE ie_id body st) := by
  have hlen : be16 (body.length / 256) (body.length % 256) = body.length := by
    rw [be16]; omega
  rw [encodeIE]
  simp only [List.cons_append]
  rw [parseIEs]
  have hnot : ¬ (body ++ rest).length < be16 (body.length / 256) (body.length % 256) := by
    simp [hlen]
  rw [if_neg hnot]
  rw [hlen, List.take_append_of_le_length (le_refl _), List.take_length,
    List.drop_append_of_le_length (le_refl _), List.drop_length, List.nil_append]

/-- Scanning well-formed elements followed by a truncated tail processes
exactly the well-formed elements and stops. -/
theorem parseIEs_encodeIEs (elems : List (Nat × List Nat)) (junk : List Nat)
    (st : ParsedData) (hj : truncatedIE junk) :
    parseIEs (encodeIEs elems ++ junk) st =
      elems.foldl (fun s e => handleIE e.1 e.2 s) st := by
  induction elems generalizing st with
  | nil => simpa [encodeIEs] using parseIEs_truncated junk st hj
  | cons e es ih =>
    rw [encodeIEs, List.append_assoc, parseIEs_cons e.1 e.2 _ st]
    exact ih _

/-- With a supplied fallback instant the composed timestamp never consults
the clock. -/
theorem composeTimestamp_some (y mo d h mi : Nat) (t n : Int) :
    composeTimestamp y mo d h mi (some t) n =
      if 1 ≤ mo ∧ mo ≤ 12 ∧ 1 ≤ d ∧ d ≤ 31 ∧ h ≤ 23 ∧ mi ≤ 59
          ∧ d ≤ daysInMonth y mo
      then .cal y mo d h mi else .inst t := rfl

/-- With a supplied fallback instant the whole decode is independent of the
clock reading. -/
theorem decodeBytes_now_irrelevant (bs : List Nat) (t n1 n2 : Int) :
    decodeBytes bs (some t) n1 = decodeBytes bs (some t) n2 := by
  by_cases h30 : bs.length < 30
  · rw [decodeBytes_short _ _ _ h30, decodeBytes_short _ _ _ h30]
  · by_cases hf : getRaw bs 0 8 = 100
    · rw [decodeBytes_eq_mkResult _ _ _ (by omega) hf,
        decodeBytes_eq_mkResult _ _ _ (by omega) hf]
      simp only [mkResult, composeTimestamp_some]
    · rw [decodeBytes_badFormat _ _ _ (by omega) hf,
        decodeBytes_badFormat _ _ _ (by omega) hf]

/-- Every byte-level decode ends in success or in a recorded error. -/
theorem decodeBytes_is_decoded_or_error (bs : List Nat) (st : Option Int) (now : Int) :
    (decodeBytes bs st now).is_decoded = true
    ∨ ((decodeBytes bs st now).is_decoded = false
        ∧ (decodeBytes bs st now).decode_error ≠ none) := by
  by_cases h30 : bs.length < 30
  · rw [decodeBytes_short _ _ _ h30]
    right
    exact ⟨rfl, by simp⟩
  · by_cases hf : getRaw bs 0 8 = 100
    · rw [decodeBytes_eq_mkResult _ _ _ (by omega) hf]
      left
      rfl
    · rw [decodeBytes_badFormat _ _ _ (by omega) hf]
      right
      exact ⟨rfl, by simp⟩

/-- The element scan on an empty remainder is the identity. -/
theorem parseIEs_nil (st : ParsedData) : parseIEs [] st = st := by
  simp [parseIEs]

/-- C1.  The claim says every all-bits-set raw field value — also the
two's-complement signed fields draft, latitude, longitude, 3-hour pressure
tendency, GPS height — leaves the Observation field absent.  The code
contradicts this (and its own docstring "Missing data indicator: All bits
set to 1 for the field"): on the 30-byte payload with format identifier 100
followed by all-ones bits, whose five signed fields all carry the all-bits-
set pattern (two's-complement value −1), the decoder populates all five
fields via the scale/offset formula instead of leaving them absent, because
its sentinel comparisons use the sign-bit-only minimum values (−16, −16384,
−32768, −512, −128) which are not the all-ones patterns. -/
theorem c1_signed_sentinel_populated :
    (decodeBytes allOnesPayload none 0).draft = some (-11)
    ∧ (decodeBytes allOnesPayload none 0).latitude = some (-90.01)
    ∧ (decodeBytes allOnesPayload none 0).longitude = some (-180.01)
    ∧ (decodeBytes allOnesPayload none 0).pressure_tendency_3h = some (-50.1)
    ∧ (decodeBytes allOnesPayload none 0).gps_height = some (-51) := by
  have hm := decodeBytes_eq_mkResult allOnesPayload none 0 (by decide) (by decide)
  rw [hm]
  simp only [mkResult]
  have h1 : getRawSigned allOnesPayload 29 5 = -1 := by decide
  have h2 : getRawSigned allOnesPayload 62 15 = -1 := by decide
  have h3 : getRawSigned allOnesPayload 77 16 = -1 := by decide
  have h4 : getRawSigned allOnesPayload 115 10 = -1 := by decide
  have h5 : getRawSigned allOnesPayload 223 8 = -1 := by decide
  rw [h1, h2, h3, h4, h5, draft_val, latitude_val, longitude_val,
    pressure_tendency_3h_val, gps_height_val]
  norm_num

/-- C2.  The claim says every valid non-sentinel raw value decodes to
`raw*scale + offset`.  The code contradicts this for the signed fields at
their most negative raw value: with draft raw bits `10000` (value −16, not
the all-ones sentinel), the formula would give −16·1 − 10 = −26 m, but the
decoder leaves the draft absent because it wrongly uses −16 as the missing
marker; a nearby raw value (5, bits `00101`) does follow the formula,
giving 5·1 − 10 = −5. -/
theorem c2_min_signed_raw_absent :
    (decodeBytes minDraftPayload none 0).draft = none
    ∧ (decodeBytes minDraftPayload none 0).is_decoded = true
    ∧ (decodeBytes midDraftPayload none 0).draft = some (-5) := by
  have hm := decodeBytes_eq_mkResult minDraftPayload none 0 (by decide) (by decide)
  have hm2 := decodeBytes_eq_mkResult midDraftPayload none 0 (by decide) (by decide)
  rw [hm, hm2]
  simp only [mkResult]
  have h1 : getRawSigned minDraftPayload 29 5 = -16 := by decide
  have h2 : getRawSigned midDraftPayload 29 5 = 5 := by decide
  rw [h1, h2, draft_val, draft_val]
  norm_num

/-- C3.  A hex payload of fewer than 30 bytes is rejected: decode success
stays false, the error names the byte count, and every other Observation
field keeps its initial absent/default value (the result equals the freshly
initialised dictionary plus only the error). -/
theorem c3_short_payload_rejected (s : String) (bs : List Nat)
    (session_time : Option Int) (now : Int)
    (hs : fromHex s = .ok bs) (h : bs.length < 30) :
    decode_eucaws_payload (.str s) session_time now =
      { initResult with decode_error := some (tooShortMsg bs.length) } := by
  simp only [decode_eucaws_payload, fromhexArg, hs]
  exact decodeBytes_short bs session_time now h

theorem c3_witness :
    ([0x12, 0x34] : List Nat).length < 30
    ∧ decode_eucaws_payload (.str "1234") none 0 =
        { initResult with decode_error := some (tooShortMsg 2) } :=
  ⟨by decide, c3_short_payload_rejected "1234" [0x12, 0x34] none 0 rfl (by decide)⟩

/-- C4.  A payload of at least 30 bytes whose first 8 bits do not decode to
100 is rejected right after the format identifier read: decode success
stays false with the format-mismatch error, the format identifier is the
only populated field, and no further bits are consumed. -/
theorem c4_format_mismatch (s : String) (bs : List Nat)
    (session_time : Option Int) (now : Int)
    (hs : fromHex s = .ok bs) (h : 30 ≤ bs.length) (hf : getRaw bs 0 8 ≠ 100) :
    decode_eucaws_payload (.str s) session_time now =
      { initResult with format_version := some (getRaw bs 0 8),
                        decode_error := some (invalidFormatMsg (getRaw bs 0 8)) } := by
  simp only [decode_eucaws_payload, fromhexArg, hs]
  exact decodeBytes_badFormat bs session_time now h hf

theorem c4_witness :
    30 ≤ (List.replicate 30 0 : List Nat).length
    ∧ getRaw (List.replicate 30 0) 0 8 ≠ 100
    ∧ decode_eucaws_payload
        (.str "000000000000000000000000000000000000000000000000000000000000") none 0 =
      { initResult with format_version := some (getRaw (List.replicate 30 0) 0 8),
                        decode_error := some (invalidFormatMsg (getRaw (List.replicate 30 0) 0 8)) } :=
  ⟨by decide, by decide,
    c4_format_mismatch "000000000000000000000000000000000000000000000000000000000000"
      (List.replicate 30 0) none 0 rfl (by decide) (by decide)⟩

/-- C5.  When the composed year/month/day/hour/minute fields are out of
range, decoding does not fail: the timestamp becomes the caller-supplied
fallback instant (or the current time when none was supplied), decode
success is still true, and every remaining field is still decoded by its
normal field map. -/
theorem c5_invalid_calendar_fallback (bs : List Nat) (session_time : Option Int)
    (now : Int) (h : 30 ≤ bs.length) (hf : getRaw bs 0 8 = 100)
    (hinv : ¬(1 ≤ getRaw bs 41 4 ∧ getRaw bs 41 4 ≤ 12 ∧ 1 ≤ getRaw bs 45 6
        ∧ getRaw bs 45 6 ≤ 31 ∧ getRaw bs 51 5 ≤ 23 ∧ getRaw bs 56 6 ≤ 59)) :
    (decodeBytes bs session_time now).timestamp
        = some (.inst (session_time.getD now))
    ∧ (decodeBytes bs session_time now).is_decoded = true
    ∧ decodeBytes bs session_time now = mkResult bs session_time now := by
  have hm := decodeBytes_eq_mkResult bs session_time now h hf
  refine ⟨?_, ?_, hm⟩
  · rw [hm]
    simp only [mkResult]
    rw [composeTimestamp.eq_def, if_neg (by tauto)]
    cases session_time <;> rfl
  · rw [hm]
    rfl

theorem c5_witness :
    30 ≤ allOnesPayload.length
    ∧ getRaw allOnesPayload 0 8 = 100
    ∧ ¬(1 ≤ getRaw allOnesPayload 41 4 ∧ getRaw allOnesPayload 41 4 ≤ 12
        ∧ 1 ≤ getRaw allOnesPayload 45 6 ∧ getRaw allOnesPayload 45 6 ≤ 31
        ∧ getRaw allOnesPayload 51 5 ≤ 23 ∧ getRaw allOnesPayload 56 6 ≤ 59)
    ∧ ((decodeBytes allOnesPayload (some 42) 7).timestamp = some (.inst 42)
        ∧ (decodeBytes allOnesPayload (some 42) 7).is_decoded = true
        ∧ decodeBytes allOnesPayload (some 42) 7 = mkResult allOnesPayload (some 42) 7) :=
  ⟨by decide, by decide, by decide,
    c5_invalid_calendar_fallback allOnesPayload (some 42) 7 (by decide) (by decide)
      (by decide)⟩

/-- C6.  For every input — a hex string (well-formed or not) or even a
`bytes` object passed where a `str` is expected — the decoder returns a
result rather than raising: every internal failure (hex conversion error,
bit-cursor exhaustion, the `TypeError` from `bytes.fromhex`) is caught at
the single outer boundary, yielding decode success false together with a
recorded error message; otherwise decode success is true.  (In this
embedding all raising paths are `Except.error` values, and
`decode_eucaws_payload` is a total function that converts them into the
in-band `decode_error` field.) -/
theorem c6_no_escape (arg : PyStrOrBytes) (session_time : Option Int) (now : Int) :
    (decode_eucaws_payload arg session_time now).is_decoded = true
    ∨ ((decode_eucaws_payload arg session_time now).is_decoded = false
        ∧ (decode_eucaws_payload arg session_time now).decode_error ≠ none) := by
  cases arg with
  | bytes b =>
    right
    exact ⟨rfl, by simp [decode_eucaws_payload, fromhexArg]⟩
  | str s =>
    cases hfs : fromHex s with
    | error e =>
      right
      refine ⟨?_, ?_⟩ <;> simp [decode_eucaws_payload, fromhexArg, hfs, initResult]
    | ok bs =>
      simp only [decode_eucaws_payload, fromhexArg, hfs]
      exact decodeBytes_is_decoded_or_error bs session_time now

/-- C7.  An envelope buffer consisting of a 3-byte header, well-formed TLV
elements, and a trailing truncated element (fewer than 3 bytes left for the
element header, or a declared length overrunning the remaining bytes) is
parsed exactly like the buffer without the truncated tail: the scan stops
cleanly (no exception — the parser is a total function whose only raising
path is the 3-byte minimum check), the accumulated fields are those of the
elements before the truncation point, and parse success is true. -/
theorem c7_truncated_element_clean (rev l1 l2 : Nat) (elems : List (Nat × List Nat))
    (junk : List Nat) (hj : truncatedIE junk) :
    parse_iridium_message (rev :: l1 :: l2 :: (encodeIEs elems ++ junk))
      = parse_iridium_message (rev :: l1 :: l2 :: encodeIEs elems)
    ∧ (parse_iridium_message (rev :: l1 :: l2 :: (encodeIEs elems ++ junk))).is_parsed
      = some true := by
  have key : ∀ tail : List Nat, parse_iridium_message (rev :: l1 :: l2 :: tail) =
      { parseIEs tail
          { protocol_revision := some rev, message_length := some (be16 l1 l2) }
        with is_parsed := some true } := by
    intro tail
    rw [parse_iridium_message, if_neg (by simp)]
    rfl
  constructor
  · rw [key, key]
    have h1 := parseIEs_encodeIEs elems junk
      { protocol_revision := some rev, message_length := some (be16 l1 l2) } hj
    have h2 := parseIEs_encodeIEs elems []
      { protocol_revision := some rev, message_length := some (be16 l1 l2) } trivial
    rw [List.append_nil] at h2
    rw [h1, h2]
  · rw [key]

theorem c7_witness :
    truncatedIE [0x03, 0x01, 0x2C]
    ∧ (parse_iridium_message
          (1 :: 0 :: 0 :: (encodeIEs [(0x01, List.replicate 28 0)] ++ [0x03, 0x01, 0x2C]))
        = parse_iridium_message (1 :: 0 :: 0 :: encodeIEs [(0x01, List.replicate 28 0)])
      ∧ (parse_iridium_message
          (1 :: 0 :: 0 :: (encodeIEs [(0x01, List.replicate 28 0)] ++ [0x03, 0x01, 0x2C]))).is_parsed
        = some true) :=
  ⟨by decide,
    c7_truncated_element_clean 1 0 0 [(0x01, List.replicate 28 0)] [0x03, 0x01, 0x2C]
      (by decide)⟩

/-- C8.  The Session Handler's candidate selection matches the claim (the
embedded Payload element's bytes when present, else the raw 30-byte message),
and a 30-byte candidate does trigger a codec invocation — but the invocation
contradicts the claim: `handle_client` calls
`decode_eucaws_payload(eucaws_payload)` with the candidate as a `bytes`
object and without the envelope's session time, so `bytes.fromhex` raises
`TypeError` (caught at the codec's boundary, decode success false) and the
session time is never used as the fallback; a `str` invocation carrying the
session time — as the decoder's signature and the reprocessing command
intend — decodes the same reference payload successfully. -/
theorem c8_handler_codec_call :
    sensorCandidate (some refBytes) [] = some refBytes
    ∧ sensorCandidate none refBytes = some refBytes
    ∧ handle_client_eucaws (some refBytes) [] 0 =
        some { initResult with
          decode_error := some "fromhex() argument must be str, not bytes" }
    ∧ (decode_eucaws_payload (.str refHex) (some 42) 0).is_decoded = true := by
  refine ⟨rfl, rfl, rfl, ?_⟩
  have h1 : fromHex refHex = .ok refBytes := rfl
  simp only [decode_eucaws_payload, fromhexArg, h1]
  rw [decodeBytes_eq_mkResult refBytes (some 42) 0 (by decide) (by decide)]
  rfl

/-- C9, counterexample.  The codec is not a pure function of payload plus
optional fallback time: with no fallback supplied and an invalid calendar
value in the payload, the result embeds the wall-clock reading
(`datetime.now`), so two invocations of the same payload with the same
(absent) fallback at different instants differ. -/
theorem c9_clock_dependence :
    decodeBytes allOnesPayload none 0 ≠ decodeBytes allOnesPayload none 1 := by
  intro h
  have ht := congrArg DecodeResult.timestamp h
  rw [decodeBytes_eq_mkResult allOnesPayload none 0 (by decide) (by decide),
    decodeBytes_eq_mkResult allOnesPayload none 1 (by decide) (by decide)] at ht
  simp only [mkResult] at ht
  exact absurd ht (by decide)

/-- C9, amended.  The codec is a pure function of its payload, its fallback
time, and the clock reading; whenever a fallback time is actually supplied,
the clock is never consulted, so two invocations on the same payload and the
same supplied fallback produce identical Observation values in every field,
no matter when they run. -/
theorem c9_pure_given_fallback (arg : PyStrOrBytes) (t n1 n2 : Int) :
    decode_eucaws_payload arg (some t) n1 = decode_eucaws_payload arg (some t) n2 := by
  cases arg with
  | bytes b => rfl
  | str s =>
    cases hfs : fromHex s with
    | error e => simp only [decode_eucaws_payload, fromhexArg, hfs]
    | ok bs =>
      simp only [decode_eucaws_payload, fromhexArg, hfs]
      exact decodeBytes_now_irrelevant bs t n1 n2

/-- C10.  A recognized element whose body is below its required minimum
(Header < 28 bytes, Location < 11 bytes, Confirmation < 1 byte) is silently
ignored: an envelope containing exactly such elements parses to the bare
result — protocol revision, declared length, parse success true — with no
element field populated and no parse error recorded. -/
theorem c10_short_elements_ignored (rev l1 l2 : Nat) (hb lb : List Nat)
    (h1 : hb.length < 28) (h2 : lb.length < 11) :
    parse_iridium_message (rev :: l1 :: l2 ::
        (encodeIE 0x01 hb ++ (encodeIE 0x03 lb ++ (encodeIE 0x05 [] ++ []))))
      = { protocol_revision := some rev, message_length := some (be16 l1 l2),
          is_parsed := some true } := by
  rw [parse_iridium_message, if_neg (by simp)]
  have hd : (rev :: l1 :: l2 ::
      (encodeIE 0x01 hb ++ (encodeIE 0x03 lb ++ (encodeIE 0x05 [] ++ [])))).drop 3
      = encodeIE 0x01 hb ++ (encodeIE 0x03 lb ++ (encodeIE 0x05 [] ++ [])) := rfl
  rw [hd, parseIEs_cons, parseIEs_cons, parseIEs_cons, parseIEs_nil]
  have e1 : ∀ st : ParsedData, handleIE 0x01 hb st = st := by
    intro st
    rw [handleIE, if_pos rfl, parseHeaderIE, if_pos h1]
  have e3 : ∀ st : ParsedData, handleIE 0x03 lb st = st := by
    intro st
    rw [handleIE, if_neg (by decide), if_neg (by decide), if_pos rfl,
      parseLocationIE, if_pos h2]
  have e5 : ∀ st : ParsedData, handleIE 0x05 [] st = st := by
    intro st
    rw [handleIE, if_neg (by decide), if_neg (by decide), if_neg (by decide),
      if_pos rfl]
    rfl
  rw [e1, e3, e5]
  have hg0 : (rev :: l1 :: l2 ::
      (encodeIE 0x01 hb ++ (encodeIE 0x03 lb ++ (encodeIE 0x05 [] ++ [])))).getD 0 0
      = rev := rfl
  have hg1 : (rev :: l1 :: l2 ::
      (encodeIE 0x01 hb ++ (encodeIE 0x03 lb ++ (encodeIE 0x05 [] ++ [])))).getD 1 0
      = l1 := rfl
  have hg2 : (rev :: l1 :: l2 ::
      (encodeIE 0x01 hb ++ (encodeIE 0x03 lb ++ (encodeIE 0x05 [] ++ [])))).getD 2 0
      = l2 := rfl
  rw [hg0, hg1, hg2]

theorem c10_witness :
    (List.replicate 27 7 : List Nat).length < 28
    ∧ (List.replicate 10 9 : List Nat).length < 11
    ∧ parse_iridium_message (2 :: 0 :: 60 ::
        (encodeIE 0x01 (List.replicate 27 7)
          ++ (encodeIE 0x03 (List.replicate 10 9) ++ (encodeIE 0x05 [] ++ []))))
      = { protocol_revision := some 2, message_length := some (be16 0 60),
          is_parsed := some true } :=
  ⟨by decide, by decide,
    c10_short_elements_ignored 2 0 60 (List.replicate 27 7) (List.replicate 10 9)
      (by decide) (by decide)⟩

end DirectIP
